import Mathlib

/-!
A shallow embedding of `main.go` of f5-gtm-example.

The program is a linear sequence of REST calls against a fixed configuration.
The embedding keeps the control flow of every function of `main.go` and makes
the outside world explicit:

* the Go libraries that talk to the outside (`http.Client.Do`, the JSON
  decoder) are fields of an environment `Env`, so every theorem holds for every
  server and every decoder;
* the requests handed to the HTTP transport are recorded, in order, in a trace
  that each function receives and returns;
* a Go function can end in three ways (`Outcome`): it returns, the process
  exits through `log.Fatal`, or the goroutine panics on a nil dereference.
-/

set_option autoImplicit false
set_option linter.dupNamespace false

namespace F5Gtm

/-! ## Constants (main.go 15-36) -/

def HOSTNAME : String := "https://hostname"
def USERNAME : String := "USERNAME"
def PASSWORD : String := "PASSWORD"

def DATACENTER : String := "DATACENTER_NAME"
def PRODUCT : String := "generic-host"
def MONITOR : String := "/Common/tcp"
def PARTITION : String := "Common"
def LOAD_BALANCING_MODE : String := "round-robin"

def DOMAIN : String := "demo.com"
def SERVER_NAME : String := "server_1.1.2.1"
def POOL_NAME : String := "pool_demo.com"
def IP : String := "1.1.2.1"
def TTL : Int := 30

/-- The struct `VirtualServer` (main.go 56-59). -/
structure VirtualServer where
  Name : String
  Destination : String
deriving DecidableEq, Repr

def VIRTUAL_SERVERS : List VirtualServer :=
  [ { Name := "vs_1.1.2.1:80", Destination := "1.1.2.1:80" },
    { Name := "vs_1.1.2.1:81", Destination := "1.1.2.1:81" } ]

/-! ## Data model (main.go 38-54) -/

/-- The struct `Token`; a field the decoder does not set keeps Go's zero value `""`. -/
structure Token where
  Token : String := ""
  Name : String := ""
  UserName : String := ""
  AuthProviderName : String := ""
deriving DecidableEq, Repr

/-- The struct `Auth`. -/
structure Auth where
  Username : String := ""
  LoginProviderName : String := ""
  Token : Token := {}
deriving DecidableEq, Repr

/-- A Go map with string keys, as the list of its bindings. -/
abbrev GoMap (α : Type) := List (String × α)

/-- The assignment `m[k] = v`: an existing binding of `k` is replaced, a new one is added. -/
def GoMap.set {α : Type} (m : GoMap α) (k : String) (v : α) : GoMap α :=
  if m.any (fun p => p.1 == k) then m.map (fun p => if p.1 == k then (k, v) else p)
  else m ++ [(k, v)]

/-- The lookup `m[k]`, `none` when `k` is not bound. -/
def GoMap.get? {α : Type} (m : GoMap α) (k : String) : Option α :=
  (m.find? (fun p => p.1 == k)).map (fun p => p.2)

/-- A value the JSON decoder stores in an `interface{}`: nil, bool, float64 (kept as its
literal, floating point is not interpreted), string, `[]interface{}`, `map[string]interface{}`. -/
inductive JsonValue where
  | null
  | bool (b : Bool)
  | number (lit : String)
  | string (s : String)
  | array (xs : List JsonValue)
  | object (kvs : List (String × JsonValue))

/-- The struct `GtmCollection`; `Items` is a slice, `none` is the nil slice. -/
structure GtmCollection where
  Kind : String := ""
  Items : Option (List (GoMap JsonValue)) := none

/-! ## Errors and outcomes -/

/-- An error value created inside a Go library (net/http, net/url, encoding/json, io). -/
structure LibError where
  pkg : String
  msg : String
deriving DecidableEq, Repr

/-- A Go `error` value seen by this program: one handed over by a library, or one the program
made itself with `errors.New`, which is a fresh value equal to no library error. -/
inductive GoError where
  | lib (e : LibError)
  | new (msg : String)
deriving DecidableEq, Repr

/-- The call `errors.New(msg)`. -/
def errorsNew (msg : String) : GoError := GoError.new msg

/-- How the run of a Go function ends. -/
inductive Outcome (α : Type) where
  /-- the function returns normally -/
  | returned (a : α)
  /-- the call `log.Fatal(e)`: the message is logged and the process exits -/
  | exited (e : GoError)
  /-- a runtime panic: nil pointer dereference -/
  | panicked
deriving Repr

/-! ## HTTP requests and responses -/

/-- What was written to the buffer that becomes the request body: nothing, or the JSON
encoding (`json.Encoder.Encode`) of a Go value. The value stands for its encoding. -/
inductive GoValue where
  | str (s : String)
  | int (n : Int)
  | strMaps (xs : List (GoMap String))
  | virtualServers (xs : List VirtualServer)
deriving DecidableEq, Repr

inductive Payload where
  | empty
  | strMap (m : GoMap String)
  | anyMap (m : GoMap GoValue)
deriving DecidableEq, Repr

/-- The type `http.Header`: the header lines in the order they were added. -/
abbrev Header := List (String × String)

/-- The method `Header.Add`: appends a value to the values of the key. -/
def Header.Add (h : Header) (key value : String) : Header := h ++ [(key, value)]

/-- The method `Header.Set`: replaces the values of the key by the one value. -/
def Header.Set (h : Header) (key value : String) : Header :=
  h.filter (fun p => !(p.1 == key)) ++ [(key, value)]

/-- All the values of a header key, in order (`Header.Values`). -/
def Header.Values (h : Header) (key : String) : List String :=
  (h.filter (fun p => p.1 == key)).map (fun p => p.2)

structure Request where
  Method : String
  URL : String
  Header : Header
  Body : Payload
deriving DecidableEq, Repr

/-- The part of `http.Response` the program reads; `Body` is what reading the body gives. The
client guarantees a non-nil `Body` on every response it hands back. -/
structure Response where
  StatusCode : Nat
  Body : String
deriving DecidableEq, Repr

/-- What `client.Do` hands back, by the contract of net/http: `(res, nil)` on success,
`(nil, err)` on a transport error, and both non-nil when the redirect check fails (the
default client stops after 10 redirects), the body of `res` being closed already. -/
inductive DoResult where
  | ok (res : Response)
  | failed (err : LibError)
  | redirectFailed (res : Response) (err : LibError)
deriving DecidableEq, Repr

/-- The first component, `*http.Response`; `none` is nil. Reading the closed body of a
response that came with a redirect error gives no bytes. -/
def DoResult.res : DoResult → Option Response
  | .ok res => some res
  | .failed _ => none
  | .redirectFailed res _ => some { res with Body := "" }

/-- The second component, `error`; `none` is nil. -/
def DoResult.err : DoResult → Option LibError
  | .ok _ => none
  | .failed err => some err
  | .redirectFailed _ err => some err

/-- The environment: the Go libraries whose result depends on the outside world.

* `roundTrip sent req`: what `http.Client.Do` answers to `req` when the requests `sent` went
  out before it.
* `readValue body`: the first step of `json.Decoder.Decode`: it reads one complete JSON value
  from the body and fails on malformed input before the target is touched.
* `unmarshalAuth v`, `unmarshalCollection v`: the second step, storing the value `v` that was
  read into a zero `Auth` / `GtmCollection`; it gives the target afterwards and the error, if
  any (a type mismatch leaves an error and a target that may be partly filled). -/
structure Env where
  roundTrip : List Request → Request → DoResult
  readValue : String → Except LibError String
  unmarshalAuth : String → Auth × Option LibError
  unmarshalCollection : String → GtmCollection × Option LibError

/-- The call `json.NewDecoder(body).Decode(&auth)` on a zero `auth`: the struct afterwards and
the error returned. -/
def Env.decodeAuth (env : Env) (body : String) : Auth × Option LibError :=
  match env.readValue body with
  | .error e => ({}, some e)
  | .ok v => env.unmarshalAuth v

/-- The call `json.NewDecoder(body).Decode(&collection)` on a zero `collection`. -/
def Env.decodeCollection (env : Env) (body : String) : GtmCollection × Option LibError :=
  match env.readValue body with
  | .error e => ({}, some e)
  | .ok v => env.unmarshalCollection v

/-- The characters of an HTTP token (`httpguts.IsTokenRune`). -/
def isTokenRune (c : Char) : Bool :=
  c.isAlphanum ||
    [33, 35, 36, 37, 38, 39, 42, 43, 45, 46, 94, 95, 96, 124, 126].contains c.toNat

/-- The check `validMethod` of net/http. -/
def validMethod (method : String) : Bool :=
  decide (0 < method.data.length) && method.data.all isTokenRune

/-- The check `stringContainsCTLByte` of net/url. -/
def stringContainsCTLByte (s : String) : Bool :=
  s.data.any (fun c => decide (c.toNat < 32) || c.toNat == 127)

/-- The call `http.NewRequest(method, url, body)`: an empty method means GET, a method that is
not a token is refused, and so is a URL that `url.Parse` refuses. Of `url.Parse` the refusal of
control bytes is modelled; every URL this program builds is `HOSTNAME` followed by a constant
path. The new request has no header lines. -/
def newRequest (method url : String) (body : Payload) : Except LibError Request :=
  let method := if method = "" then "GET" else method
  if !validMethod method then .error ⟨"net/http", "invalid method"⟩
  else if stringContainsCTLByte url then .error ⟨"net/url", "invalid control character in URL"⟩
  else .ok { Method := method, URL := url, Header := [], Body := body }

/-- The call `client.Do(req)` on a non-nil request: the request goes to the transport and is
recorded in the trace, whatever the answer. -/
def clientDo (env : Env) (trace : List Request) (req : Request) : DoResult × List Request :=
  (env.roundTrip trace req, trace ++ [req])

/-- The call `client.Post(url, contentType, body)` of net/http: a new POST request whose
`Content-Type` is set to `contentType`, then `Do`. -/
def clientPost (env : Env) (trace : List Request) (url contentType : String) (body : Payload) :
    DoResult × List Request :=
  match newRequest "POST" url body with
  | .error e => (.failed e, trace)
  | .ok req => clientDo env trace { req with Header := req.Header.Set "Content-Type" contentType }

/-! ## The functions of main.go -/

/-- The function `GetAuthToken` (main.go 62-92): the pair it returns, and the trace. The
response is touched only after `err != nil` has returned, so no step can panic. -/
def GetAuthToken (env : Env) (trace : List Request) : (String × Option GoError) × List Request :=
  let params : GoMap String := [("username", USERNAME), ("password", PASSWORD)]
  let data := Payload.strMap params
  match clientPost env trace (HOSTNAME ++ "/mgmt/shared/authn/login")
      "application/json; charset=utf-8" data with
  | (.failed err, trace) => (("", some (.lib err)), trace)
  | (.redirectFailed _ err, trace) => (("", some (.lib err)), trace)
  | (.ok res, trace) =>
    match env.decodeAuth res.Body with
    | (_, some err) => (("", some (.lib err)), trace)
    | (auth, none) =>
      if auth.Token.Token.utf8ByteSize = 0 then
        (("", some (errorsNew "Parsing token failed, token is empty.")), trace)
      else
        ((auth.Token.Token, none), trace)

/-- The function `getReq` (main.go 206-223): the pair `(*http.Request, error)`. -/
def getReq (method uri token : String) (params : Option (GoMap GoValue)) :
    Option Request × Option GoError :=
  let data := match params with
    | some p => Payload.anyMap p
    | none => Payload.empty
  match newRequest method (HOSTNAME ++ uri) data with
  | .error err => (none, some (.lib err))
  | .ok req =>
    let req := { req with Header := req.Header.Add "Content-Type" "application/json" }
    let req := { req with Header := req.Header.Add "Accept" "application/json" }
    let req := { req with Header := req.Header.Add "X-F5-Auth-Token" token }
    (some req, none)

/-- The function `convertBodyToString` (main.go 226-233); `none` is the nil body. -/
def convertBodyToString (body : Option String) : String :=
  match body with
  | none => ""
  | some bytes => bytes

/-- The function `GetServers` (main.go 95-119). -/
def GetServers (env : Env) (trace : List Request) :
    Outcome (Option (List (GoMap JsonValue))) × List Request :=
  match GetAuthToken env trace with
  | ((_, some err), trace) => (.exited err, trace)
  | ((token, none), trace) =>
    match getReq "GET" "/mgmt/tm/gtm/server" token none with
    | (_, some err) => (.exited err, trace)
    | (none, none) => (.panicked, trace)
    | (some req, none) =>
      match clientDo env trace req with
      | (.failed err, trace) => (.exited (.lib err), trace)
      | (.redirectFailed _ err, trace) => (.exited (.lib err), trace)
      | (.ok res, trace) =>
        let collection := (env.decodeCollection res.Body).1
        (.returned collection.Items, trace)

/-- The map `params` of `CreateServer` (main.go 127-137). -/
def CreateServer_params : GoMap GoValue :=
  let addresses : List (GoMap String) := [[("name", IP), ("deviceName", SERVER_NAME)]]
  let params : GoMap GoValue := []
  let params := params.set "name" (.str SERVER_NAME)
  let params := params.set "datacenter" (.str DATACENTER)
  let params := params.set "product" (.str PRODUCT)
  let params := params.set "monitor" (.str MONITOR)
  let params := params.set "addresses" (.strMaps addresses)
  let params := params.set "virtualServers" (.virtualServers VIRTUAL_SERVERS)
  params

/-- The function `CreateServer` (main.go 122-145). The errors of `GetAuthToken`, `getReq` and
`client.Do` are dropped (`_`); `client.Do` dereferences `req` and the statement
`defer res.Body.Close()` evaluates `res.Body`, so a nil `req` and a nil `res` both panic. -/
def CreateServer (env : Env) (trace : List Request) : Outcome Unit × List Request :=
  let params := CreateServer_params
  match GetAuthToken env trace with
  | ((token, _), trace) =>
    match getReq "POST" "/mgmt/tm/gtm/server" token (some params) with
    | (none, _) => (.panicked, trace)
    | (some req, _) =>
      match clientDo env trace req with
      | (r, trace) =>
        match r.res with
        | none => (.panicked, trace)
        | some _ => (.returned (), trace)

/-- The map `params` of `CreatePool` (main.go 149-161). -/
def CreatePool_params : GoMap GoValue :=
  let members : List (GoMap String) :=
    [ [("name", "server_1.1.2.1:vs_1.1.2.1:80")],
      [("name", "server_1.1.2.1:vs_1.1.2.1:81")] ]
  let params : GoMap GoValue := []
  let params := params.set "name" (.str "pool_demo.com")
  let params := params.set "partition" (.str PARTITION)
  let params := params.set "monitor" (.str MONITOR)
  let params := params.set "ttl" (.int TTL)
  let params := params.set "alternate_mode" (.str LOAD_BALANCING_MODE)
  let params := params.set "load_balancing_mode" (.str LOAD_BALANCING_MODE)
  let params := params.set "members" (.strMaps members)
  params

/-- The function `CreatePool` (main.go 148-171); the same steps as in `CreateServer`, then the
body of the response is returned as a string. -/
def CreatePool (env : Env) (trace : List Request) : Outcome String × List Request :=
  let params := CreatePool_params
  match GetAuthToken env trace with
  | ((token, _), trace) =>
    match getReq "POST" "/mgmt/tm/gtm/pool/a" token (some params) with
    | (none, _) => (.panicked, trace)
    | (some req, _) =>
      match clientDo env trace req with
      | (r, trace) =>
        match r.res with
        | none => (.panicked, trace)
        | some res => (.returned (convertBodyToString (some res.Body)), trace)

/-- The map `params` of `CreateWideip` (main.go 175-184). -/
def CreateWideip_params : GoMap GoValue :=
  let pools : List (GoMap String) := [[("name", "pool_demo.com")]]
  let params : GoMap GoValue := []
  let params := params.set "name" (.str DOMAIN)
  let params := params.set "partition" (.str PARTITION)
  let params := params.set "pool_lb_mode" (.str LOAD_BALANCING_MODE)
  let params := params.set "ttl" (.int TTL)
  let params := params.set "description" (.str "demo.com\x27s description")
  let params := params.set "pools" (.strMaps pools)
  params

/-- The function `CreateWideip` (main.go 174-194); the same steps as in `CreatePool`. -/
def CreateWideip (env : Env) (trace : List Request) : Outcome String × List Request :=
  let params := CreateWideip_params
  match GetAuthToken env trace with
  | ((token, _), trace) =>
    match getReq "POST" "/mgmt/tm/gtm/wideip/a" token (some params) with
    | (none, _) => (.panicked, trace)
    | (some req, _) =>
      match clientDo env trace req with
      | (r, trace) =>
        match r.res with
        | none => (.panicked, trace)
        | some res => (.returned (convertBodyToString (some res.Body)), trace)

/-! ## The requests the program builds -/

/-- The request that `client.Post` builds in `GetAuthToken`. -/
def loginRequest : Request :=
  { Method := "POST", URL := HOSTNAME ++ "/mgmt/shared/authn/login",
    Header := [("Content-Type", "application/json; charset=utf-8")],
    Body := .strMap [("username", USERNAME), ("password", PASSWORD)] }

/-- The request that `getReq` returns when `http.NewRequest` accepts its arguments. -/
def builtRequest (method uri token : String) (data : Payload) : Request :=
  { Method := method, URL := HOSTNAME ++ uri,
    Header := [("Content-Type", "application/json"), ("Accept", "application/json"),
      ("X-F5-Auth-Token", token)],
    Body := data }

/-- The GET request of `GetServers` after a login that returned `token`. -/
def serversRequest (token : String) : Request :=
  builtRequest "GET" "/mgmt/tm/gtm/server" token .empty

/-- The POST request of `CreateServer` after a login that returned `token`. -/
def serverRequest (token : String) : Request :=
  builtRequest "POST" "/mgmt/tm/gtm/server" token (.anyMap CreateServer_params)

/-- The POST request of `CreatePool` after a login that returned `token`. -/
def poolRequest (token : String) : Request :=
  builtRequest "POST" "/mgmt/tm/gtm/pool/a" token (.anyMap CreatePool_params)

/-- The POST request of `CreateWideip` after a login that returned `token`. -/
def wideipRequest (token : String) : Request :=
  builtRequest "POST" "/mgmt/tm/gtm/wideip/a" token (.anyMap CreateWideip_params)

/-- The three header lines `getReq` adds, in order. -/
def standardHeader (token : String) : Header :=
  [("Content-Type", "application/json"), ("Accept", "application/json"),
    ("X-F5-Auth-Token", token)]

/-- A request carries the three standard headers, the token header with value `token`. -/
def carriesStandardHeaders (req : Request) (token : String) : Prop :=
  ("Content-Type", "application/json") ∈ req.Header ∧
  ("Accept", "application/json") ∈ req.Header ∧
  ("X-F5-Auth-Token", token) ∈ req.Header

instance (req : Request) (token : String) : Decidable (carriesStandardHeaders req token) := by
  unfold carriesStandardHeaders; infer_instance

/-! ## A mock device, for concrete runs -/

def tokenBody : String := "\x7b\"token\":\x7b\"token\":\"abc123\"\x7d\x7d"
def secondTokenBody : String := "\x7b\"token\":\x7b\"token\":\"def456\"\x7d\x7d"
def emptyTokenBody : String := "\x7b\"token\":\x7b\"token\":\"\"\x7d\x7d"
def serversBody : String := "\x7b\"kind\":\"x\",\"items\":[\x7b\"name\":\"s1\"\x7d]\x7d"

/-- The JSON decoder restricted to the four bodies above: any other body is malformed. -/
def mockReadValue (body : String) : Except LibError String :=
  if body = tokenBody ∨ body = secondTokenBody ∨ body = emptyTokenBody ∨ body = serversBody
  then .ok body
  else .error ⟨"encoding/json", "invalid character looking for beginning of value"⟩

/-- What the decoder stores into an `Auth` for each of the four bodies; keys that match no
field are skipped. -/
def mockUnmarshalAuth (v : String) : Auth × Option LibError :=
  if v = tokenBody then ({ Token := { Token := "abc123" } }, none)
  else if v = secondTokenBody then ({ Token := { Token := "def456" } }, none)
  else ({}, none)

/-- What the decoder stores into a `GtmCollection` for each of the four bodies. -/
def mockUnmarshalCollection (v : String) : GtmCollection × Option LibError :=
  if v = serversBody then
    ({ Kind := "x", Items := some [[("name", JsonValue.string "s1")]] }, none)
  else ({}, none)

/-- A mock device: `login` is the answer of the login endpoint, `api` that of every other. -/
def mockEnv (login api : DoResult) : Env :=
  { roundTrip := fun _ req =>
      if req.URL = HOSTNAME ++ "/mgmt/shared/authn/login" then login else api
    readValue := mockReadValue
    unmarshalAuth := mockUnmarshalAuth
    unmarshalCollection := mockUnmarshalCollection }

/-- A mock device that issues a new token at every login: `abc123` at the first login,
`def456` at the later ones; every other endpoint echoes an empty object. -/
def rotatingEnv : Env :=
  { roundTrip := fun sent req =>
      if req.URL = HOSTNAME ++ "/mgmt/shared/authn/login" then
        (if sent = [] then .ok ⟨200, tokenBody⟩ else .ok ⟨200, secondTokenBody⟩)
      else .ok ⟨200, "\x7b\x7d"⟩
    readValue := mockReadValue
    unmarshalAuth := mockUnmarshalAuth
    unmarshalCollection := mockUnmarshalCollection }

def connectionRefused : LibError := ⟨"net/http", "dial tcp: connection refused"⟩

def tooManyRedirects : LibError := ⟨"net/http", "stopped after 10 redirects"⟩

/-! ## Lemmas on the functions -/

theorem utf8ByteSize_go_eq_zero (cs : List Char) : String.utf8ByteSize.go cs = 0 ↔ cs = [] := by
  cases cs with
  | nil => simp [String.utf8ByteSize.go]
  | cons c cs =>
    have := Char.utf8Size_pos c
    simp [String.utf8ByteSize.go]
    omega

theorem utf8ByteSize_eq_zero (s : String) : s.utf8ByteSize = 0 ↔ s = "" := by
  cases s with
  | mk cs =>
    simp only [String.utf8ByteSize, utf8ByteSize_go_eq_zero]
    constructor
    · intro h; subst h; rfl
    · intro h; exact congrArg String.data h

theorem DoResult.err_eq_none_iff (r : DoResult) : r.err = none ↔ ∃ res, r = .ok res := by
  cases r <;> simp [DoResult.err]

theorem DoResult.res_eq_none_iff (r : DoResult) : r.res = none ↔ ∃ e, r = .failed e := by
  cases r <;> simp [DoResult.res]

theorem clientPost_login (env : Env) (trace : List Request) :
    clientPost env trace (HOSTNAME ++ "/mgmt/shared/authn/login")
      "application/json; charset=utf-8" (.strMap [("username", USERNAME), ("password", PASSWORD)])
      = (env.roundTrip trace loginRequest, trace ++ [loginRequest]) := by
  rfl

theorem GetAuthToken_transport_error (env : Env) (trace : List Request) (e : LibError)
    (hpost : (env.roundTrip trace loginRequest).err = some e) :
    GetAuthToken env trace = (("", some (.lib e)), trace ++ [loginRequest]) := by
  simp only [GetAuthToken, clientPost_login]
  cases h : env.roundTrip trace loginRequest with
  | ok res => simp [h, DoResult.err] at hpost
  | failed err =>
    simp only [h, DoResult.err, Option.some.injEq] at hpost
    subst hpost
    rfl
  | redirectFailed res err =>
    simp only [h, DoResult.err, Option.some.injEq] at hpost
    subst hpost
    rfl

theorem GetAuthToken_decode_error (env : Env) (trace : List Request) (res : Response)
    (e : LibError) (hpost : env.roundTrip trace loginRequest = .ok res)
    (hdec : (env.decodeAuth res.Body).2 = some e) :
    GetAuthToken env trace = (("", some (.lib e)), trace ++ [loginRequest]) := by
  simp only [GetAuthToken, clientPost_login, hpost]
  cases h : env.decodeAuth res.Body with
  | mk auth err =>
    rw [h] at hdec
    simp only at hdec
    subst hdec
    rfl

theorem GetAuthToken_empty (env : Env) (trace : List Request) (res : Response) (auth : Auth)
    (hpost : env.roundTrip trace loginRequest = .ok res)
    (hdec : env.decodeAuth res.Body = (auth, none)) (htok : auth.Token.Token = "") :
    GetAuthToken env trace =
      (("", some (errorsNew "Parsing token failed, token is empty.")), trace ++ [loginRequest]) := by
  simp only [GetAuthToken, clientPost_login, hpost, hdec]
  rw [if_pos ((utf8ByteSize_eq_zero _).2 htok)]

theorem GetAuthToken_ok (env : Env) (trace : List Request) (res : Response) (auth : Auth)
    (hpost : env.roundTrip trace loginRequest = .ok res)
    (hdec : env.decodeAuth res.Body = (auth, none)) (htok : auth.Token.Token ≠ "") :
    GetAuthToken env trace = ((auth.Token.Token, none), trace ++ [loginRequest]) := by
  simp only [GetAuthToken, clientPost_login, hpost, hdec]
  rw [if_neg (fun h => htok ((utf8ByteSize_eq_zero _).1 h))]

/-- The four ways a run of `GetAuthToken` can go. -/
theorem GetAuthToken_cases (env : Env) (trace : List Request) :
    (∃ e, (env.roundTrip trace loginRequest).err = some e ∧
      GetAuthToken env trace = (("", some (.lib e)), trace ++ [loginRequest])) ∨
    (∃ res e, env.roundTrip trace loginRequest = .ok res ∧
      (env.decodeAuth res.Body).2 = some e ∧
      GetAuthToken env trace = (("", some (.lib e)), trace ++ [loginRequest])) ∨
    (∃ res auth, env.roundTrip trace loginRequest = .ok res ∧
      env.decodeAuth res.Body = (auth, none) ∧ auth.Token.Token = "" ∧
      GetAuthToken env trace =
        (("", some (errorsNew "Parsing token failed, token is empty.")),
          trace ++ [loginRequest])) ∨
    (∃ res auth, env.roundTrip trace loginRequest = .ok res ∧
      env.decodeAuth res.Body = (auth, none) ∧ auth.Token.Token ≠ "" ∧
      GetAuthToken env trace = ((auth.Token.Token, none), trace ++ [loginRequest])) := by
  cases herr : (env.roundTrip trace loginRequest).err with
  | some e => exact Or.inl ⟨e, rfl, GetAuthToken_transport_error env trace e herr⟩
  | none =>
    obtain ⟨res, hpost⟩ := (DoResult.err_eq_none_iff _).1 herr
    cases hdec : env.decodeAuth res.Body with
    | mk auth err =>
      cases err with
      | some e =>
        exact Or.inr (Or.inl ⟨res, e, hpost, by rw [hdec],
          GetAuthToken_decode_error env trace res e hpost (by rw [hdec])⟩)
      | none =>
        by_cases htok : auth.Token.Token = ""
        · exact Or.inr (Or.inr (Or.inl ⟨res, auth, hpost, hdec, htok,
            GetAuthToken_empty env trace res auth hpost hdec htok⟩))
        · exact Or.inr (Or.inr (Or.inr ⟨res, auth, hpost, hdec, htok,
            GetAuthToken_ok env trace res auth hpost hdec htok⟩))

theorem GetAuthToken_trace (env : Env) (trace : List Request) :
    (GetAuthToken env trace).2 = trace ++ [loginRequest] := by
  rcases GetAuthToken_cases env trace with ⟨_, _, h⟩ | ⟨_, _, _, _, h⟩ | ⟨_, _, _, _, _, h⟩ |
    ⟨_, _, _, _, _, h⟩ <;> rw [h]

theorem getReq_built (method uri token : String) (params : Option (GoMap GoValue))
    (hm : (method = "POST" ∨ method = "GET"))
    (hu : stringContainsCTLByte (HOSTNAME ++ uri) = false) :
    getReq method uri token params =
      (some (builtRequest method uri token
        (match params with | some p => Payload.anyMap p | none => Payload.empty)), none) := by
  rcases hm with rfl | rfl
  · simp only [getReq, newRequest, hu]
    rfl
  · simp only [getReq, newRequest, hu]
    rfl

theorem getReq_servers (token : String) :
    getReq "GET" "/mgmt/tm/gtm/server" token none =
      (some (builtRequest "GET" "/mgmt/tm/gtm/server" token .empty), none) :=
  getReq_built "GET" "/mgmt/tm/gtm/server" token none (Or.inr rfl) (by decide)

theorem getReq_createServer (token : String) (params : GoMap GoValue) :
    getReq "POST" "/mgmt/tm/gtm/server" token (some params) =
      (some (builtRequest "POST" "/mgmt/tm/gtm/server" token (.anyMap params)), none) :=
  getReq_built "POST" "/mgmt/tm/gtm/server" token (some params) (Or.inl rfl) (by decide)

theorem getReq_createPool (token : String) (params : GoMap GoValue) :
    getReq "POST" "/mgmt/tm/gtm/pool/a" token (some params) =
      (some (builtRequest "POST" "/mgmt/tm/gtm/pool/a" token (.anyMap params)), none) :=
  getReq_built "POST" "/mgmt/tm/gtm/pool/a" token (some params) (Or.inl rfl) (by decide)

theorem getReq_createWideip (token : String) (params : GoMap GoValue) :
    getReq "POST" "/mgmt/tm/gtm/wideip/a" token (some params) =
      (some (builtRequest "POST" "/mgmt/tm/gtm/wideip/a" token (.anyMap params)), none) :=
  getReq_built "POST" "/mgmt/tm/gtm/wideip/a" token (some params) (Or.inl rfl) (by decide)

/-- The run of `GetServers` after a login that returned `token` without error. -/
theorem GetServers_after_login (env : Env) (trace : List Request) (token : String)
    (hauth : (GetAuthToken env trace).1 = (token, none)) :
    GetServers env trace =
      ((match env.roundTrip (trace ++ [loginRequest]) (serversRequest token) with
        | .failed err => Outcome.exited (.lib err)
        | .redirectFailed _ err => Outcome.exited (.lib err)
        | .ok res => Outcome.returned (env.decodeCollection res.Body).1.Items),
       trace ++ [loginRequest, serversRequest token]) := by
  have htr := GetAuthToken_trace env trace
  cases hg : GetAuthToken env trace with
  | mk r t1 =>
    rw [hg] at htr hauth
    simp only at htr hauth
    subst htr hauth
    simp only [GetServers, hg, getReq_servers, clientDo, serversRequest]
    cases env.roundTrip (trace ++ [loginRequest])
        (builtRequest "GET" "/mgmt/tm/gtm/server" token .empty) with
    | failed e => simp
    | redirectFailed res e => simp
    | ok res => simp

/-- The run of `GetServers` after a login that returned an error. -/
theorem GetServers_login_failed (env : Env) (trace : List Request) (err : GoError)
    (hauth : (GetAuthToken env trace).1.2 = some err) :
    GetServers env trace = (Outcome.exited err, trace ++ [loginRequest]) := by
  have htr := GetAuthToken_trace env trace
  cases hg : GetAuthToken env trace with
  | mk r t1 =>
    cases r with
    | mk token e =>
      rw [hg] at htr hauth
      simp only at htr hauth
      subst htr hauth
      simp only [GetServers, hg]

theorem GetServers_run (env : Env) (trace : List Request) :
    GetServers env trace =
      match (GetAuthToken env trace).1.2 with
      | some err => (Outcome.exited err, trace ++ [loginRequest])
      | none =>
        ((match env.roundTrip (trace ++ [loginRequest])
            (serversRequest (GetAuthToken env trace).1.1) with
          | .failed err => Outcome.exited (.lib err)
          | .redirectFailed _ err => Outcome.exited (.lib err)
          | .ok res => Outcome.returned (env.decodeCollection res.Body).1.Items),
         trace ++ [loginRequest, serversRequest (GetAuthToken env trace).1.1]) := by
  cases h : (GetAuthToken env trace).1.2 with
  | some err => simpa using GetServers_login_failed env trace err h
  | none =>
    have hauth : (GetAuthToken env trace).1 = ((GetAuthToken env trace).1.1, none) := by
      rw [← h]
    simpa using GetServers_after_login env trace _ hauth

theorem CreateServer_run (env : Env) (trace : List Request) :
    CreateServer env trace =
      ((match (env.roundTrip (trace ++ [loginRequest])
          (serverRequest (GetAuthToken env trace).1.1)).res with
        | none => Outcome.panicked
        | some _ => Outcome.returned ()),
       trace ++ [loginRequest, serverRequest (GetAuthToken env trace).1.1]) := by
  have htr := GetAuthToken_trace env trace
  cases hg : GetAuthToken env trace with
  | mk r t1 =>
    cases r with
    | mk token err =>
      rw [hg] at htr
      simp only at htr
      subst htr
      simp only [CreateServer, hg, getReq_createServer, clientDo, serverRequest]
      cases (env.roundTrip (trace ++ [loginRequest])
          (builtRequest "POST" _ token (.anyMap CreateServer_params))).res with
      | none => simp
      | some res => simp

theorem CreatePool_run (env : Env) (trace : List Request) :
    CreatePool env trace =
      ((match (env.roundTrip (trace ++ [loginRequest])
          (poolRequest (GetAuthToken env trace).1.1)).res with
        | none => Outcome.panicked
        | some res => Outcome.returned res.Body),
       trace ++ [loginRequest, poolRequest (GetAuthToken env trace).1.1]) := by
  have htr := GetAuthToken_trace env trace
  cases hg : GetAuthToken env trace with
  | mk r t1 =>
    cases r with
    | mk token err =>
      rw [hg] at htr
      simp only at htr
      subst htr
      simp only [CreatePool, hg, getReq_createPool, clientDo, poolRequest]
      cases (env.roundTrip (trace ++ [loginRequest])
          (builtRequest "POST" _ token (.anyMap CreatePool_params))).res with
      | none => simp
      | some res => simp [convertBodyToString]

theorem CreateWideip_run (env : Env) (trace : List Request) :
    CreateWideip env trace =
      ((match (env.roundTrip (trace ++ [loginRequest])
          (wideipRequest (GetAuthToken env trace).1.1)).res with
        | none => Outcome.panicked
        | some res => Outcome.returned res.Body),
       trace ++ [loginRequest, wideipRequest (GetAuthToken env trace).1.1]) := by
  have htr := GetAuthToken_trace env trace
  cases hg : GetAuthToken env trace with
  | mk r t1 =>
    cases r with
    | mk token err =>
      rw [hg] at htr
      simp only at htr
      subst htr
      simp only [CreateWideip, hg, getReq_createWideip, clientDo, wideipRequest]
      cases (env.roundTrip (trace ++ [loginRequest])
          (builtRequest "POST" _ token (.anyMap CreateWideip_params))).res with
      | none => simp
      | some res => simp [convertBodyToString]

/-- A creator panics exactly when `client.Do` hands back no response. -/
theorem creators_panic_iff_no_response (env : Env) (trace : List Request) :
    ((CreateServer env trace).1 = Outcome.panicked ↔
      (env.roundTrip (trace ++ [loginRequest])
        (serverRequest (GetAuthToken env trace).1.1)).res = none) ∧
    ((CreatePool env trace).1 = Outcome.panicked ↔
      (env.roundTrip (trace ++ [loginRequest])
        (poolRequest (GetAuthToken env trace).1.1)).res = none) ∧
    ((CreateWideip env trace).1 = Outcome.panicked ↔
      (env.roundTrip (trace ++ [loginRequest])
        (wideipRequest (GetAuthToken env trace).1.1)).res = none) := by
  refine ⟨?_, ?_, ?_⟩
  · rw [CreateServer_run]
    cases (env.roundTrip (trace ++ [loginRequest])
      (serverRequest (GetAuthToken env trace).1.1)).res <;> simp
  · rw [CreatePool_run]
    cases (env.roundTrip (trace ++ [loginRequest])
      (poolRequest (GetAuthToken env trace).1.1)).res <;> simp
  · rw [CreateWideip_run]
    cases (env.roundTrip (trace ++ [loginRequest])
      (wideipRequest (GetAuthToken env trace).1.1)).res <;> simp

/-- After a failed redirect check `client.Do` hands back an error and a response whose body
is closed: the creators drop the error and go on, `CreatePool` returning the empty string. -/
theorem CreatePool_after_failed_redirect (env : Env) (trace : List Request) (res : Response)
    (e : LibError)
    (h : env.roundTrip (trace ++ [loginRequest]) (poolRequest (GetAuthToken env trace).1.1)
      = .redirectFailed res e) :
    (CreatePool env trace).1 = Outcome.returned "" := by
  rw [CreatePool_run, h]
  rfl

theorem mockEnv_login (api : DoResult) :
    GetAuthToken (mockEnv (.ok ⟨200, tokenBody⟩) api) []
      = (("abc123", none), [loginRequest]) :=
  GetAuthToken_ok (mockEnv (.ok ⟨200, tokenBody⟩) api) []
    ⟨200, tokenBody⟩ { Token := { Token := "abc123" } } rfl rfl (by decide)

/-- Two runs of `CreatePool` in a row against a device that issues a new token at every login:
each run logs in for itself and sends the token of its own login. -/
theorem CreatePool_twice_rotating :
    (CreatePool rotatingEnv (CreatePool rotatingEnv []).2).2 =
      [loginRequest, poolRequest "abc123", loginRequest, poolRequest "def456"] := by
  have h1 : GetAuthToken rotatingEnv [] = (("abc123", none), [loginRequest]) :=
    GetAuthToken_ok rotatingEnv [] ⟨200, tokenBody⟩ { Token := { Token := "abc123" } }
      rfl rfl (by decide)
  have h2 : GetAuthToken rotatingEnv [loginRequest, poolRequest "abc123"] =
      (("def456", none), [loginRequest, poolRequest "abc123"] ++ [loginRequest]) :=
    GetAuthToken_ok rotatingEnv [loginRequest, poolRequest "abc123"] ⟨200, secondTokenBody⟩
      { Token := { Token := "def456" } } rfl rfl (by decide)
  have e1 : (CreatePool rotatingEnv []).2 = [loginRequest, poolRequest "abc123"] := by
    rw [CreatePool_run, h1]; rfl
  rw [e1, CreatePool_run, h2]
  rfl

/-- A body that is no JSON at all: the decode error is dropped and the nil list returned. -/
theorem GetServers_malformed_body :
    (GetServers (mockEnv (.ok ⟨200, tokenBody⟩) (.ok ⟨502, "<html>Bad Gateway</html>"⟩)) []).1
      = Outcome.returned none := by
  rw [GetServers_after_login _ [] "abc123" (by rw [mockEnv_login])]
  rfl

/-- A login that fails ends `GetServers` in `log.Fatal` before any GET goes out. -/
theorem GetServers_login_down :
    GetServers (mockEnv (.failed connectionRefused) (.ok ⟨200, serversBody⟩)) []
      = (Outcome.exited (.lib connectionRefused), [loginRequest]) := by
  have h := GetAuthToken_transport_error
    (mockEnv (.failed connectionRefused) (.ok ⟨200, serversBody⟩)) [] connectionRefused rfl
  rw [GetServers_login_failed _ [] (.lib connectionRefused) (by rw [h])]
  rfl

/-! ## The claims -/

/-- C1: when the login POST gets a response whose body decodes without error to an `Auth`
with a non-empty `token.token` string `t`, `GetAuthToken` returns `(t, nil)`. -/
theorem C1_GetAuthToken_returns_decoded_token (env : Env) (trace : List Request)
    (res : Response) (auth : Auth) (t : String)
    (hpost : env.roundTrip trace loginRequest = .ok res)
    (hdec : env.decodeAuth res.Body = (auth, none))
    (htok : auth.Token.Token = t) (hne : t ≠ "") :
    (GetAuthToken env trace).1 = (t, none) := by
  subst htok
  rw [GetAuthToken_ok env trace res auth hpost hdec hne]

/-- Witness of C1: the body `\x7b"token":\x7b"token":"abc123"\x7d\x7d` yields `"abc123"`. -/
theorem C1_witness :
    (GetAuthToken (mockEnv (.ok ⟨200, tokenBody⟩) (.ok ⟨200, serversBody⟩)) []).1
      = ("abc123", none) :=
  C1_GetAuthToken_returns_decoded_token (mockEnv (.ok ⟨200, tokenBody⟩) (.ok ⟨200, serversBody⟩))
    [] ⟨200, tokenBody⟩ { Token := { Token := "abc123" } } "abc123" rfl rfl rfl (by decide)

/-- C2: when the login body decodes without error but the decoded `token.token` string is
empty, `GetAuthToken` returns `""` with the error made by
`errors.New("Parsing token failed, token is empty.")`; that error is no library error, and it
is not what `GetAuthToken` returns on a transport failure or on a decode failure. -/
theorem C2_GetAuthToken_empty_token_error (env : Env) (trace : List Request)
    (res : Response) (auth : Auth)
    (hpost : env.roundTrip trace loginRequest = .ok res)
    (hdec : env.decodeAuth res.Body = (auth, none))
    (htok : auth.Token.Token = "") :
    (GetAuthToken env trace).1 =
        ("", some (errorsNew "Parsing token failed, token is empty.")) ∧
    (∀ e : LibError, errorsNew "Parsing token failed, token is empty." ≠ GoError.lib e) ∧
    (∀ (env2 : Env) (trace2 : List Request) (e : LibError),
        (env2.roundTrip trace2 loginRequest).err = some e →
        (GetAuthToken env2 trace2).1.2 ≠
          some (errorsNew "Parsing token failed, token is empty.")) ∧
    (∀ (env2 : Env) (trace2 : List Request) (res2 : Response) (e : LibError),
        env2.roundTrip trace2 loginRequest = .ok res2 →
        (env2.decodeAuth res2.Body).2 = some e →
        (GetAuthToken env2 trace2).1.2 ≠
          some (errorsNew "Parsing token failed, token is empty.")) := by
  refine ⟨?_, ?_, ?_, ?_⟩
  · rw [GetAuthToken_empty env trace res auth hpost hdec htok]
  · intro e h
    simp [errorsNew] at h
  · intro env2 trace2 e h
    rw [GetAuthToken_transport_error env2 trace2 e h]
    simp [errorsNew]
  · intro env2 trace2 res2 e h hd
    rw [GetAuthToken_decode_error env2 trace2 res2 e h hd]
    simp [errorsNew]

/-- Witness of C2: the body `\x7b"token":\x7b"token":""\x7d\x7d`. -/
theorem C2_witness :
    (GetAuthToken (mockEnv (.ok ⟨200, emptyTokenBody⟩) (.ok ⟨200, serversBody⟩)) []).1 =
      ("", some (errorsNew "Parsing token failed, token is empty.")) :=
  (C2_GetAuthToken_empty_token_error (mockEnv (.ok ⟨200, emptyTokenBody⟩) (.ok ⟨200, serversBody⟩))
    [] ⟨200, emptyTokenBody⟩ {} rfl rfl rfl).1

/-- C3: `GetAuthToken` returns a non-nil error exactly when the login POST fails at transport
level, or the body fails to decode into `Auth`, or the decoded token string is empty; in
the first two cases the error is the one of the library, unchanged; with an error the token
returned is `""`; and in every run exactly one request, the login POST, goes out. -/
theorem C3_GetAuthToken_error_cases (env : Env) (trace : List Request) :
    ((GetAuthToken env trace).1.2 ≠ none ↔
      ((∃ e, (env.roundTrip trace loginRequest).err = some e) ∨
       (∃ res e, env.roundTrip trace loginRequest = .ok res ∧
          (env.decodeAuth res.Body).2 = some e) ∨
       (∃ res auth, env.roundTrip trace loginRequest = .ok res ∧
          env.decodeAuth res.Body = (auth, none) ∧ auth.Token.Token = ""))) ∧
    (∀ e, (env.roundTrip trace loginRequest).err = some e →
      (GetAuthToken env trace).1 = ("", some (.lib e))) ∧
    (∀ res e, env.roundTrip trace loginRequest = .ok res →
      (env.decodeAuth res.Body).2 = some e →
      (GetAuthToken env trace).1 = ("", some (.lib e))) ∧
    ((GetAuthToken env trace).1.2 ≠ none → (GetAuthToken env trace).1.1 = "") ∧
    (GetAuthToken env trace).2 = trace ++ [loginRequest] := by
  refine ⟨?_, ?_, ?_, ?_, GetAuthToken_trace env trace⟩
  · rcases GetAuthToken_cases env trace with ⟨e, he, h⟩ | ⟨res, e, hp, hd, h⟩ |
      ⟨res, auth, hp, hd, ht, h⟩ | ⟨res, auth, hp, hd, ht, h⟩
    · rw [h]
      simp only [ne_eq, reduceCtorEq, not_false_eq_true, true_iff]
      exact Or.inl ⟨e, he⟩
    · rw [h]
      simp only [ne_eq, reduceCtorEq, not_false_eq_true, true_iff]
      exact Or.inr (Or.inl ⟨res, e, hp, hd⟩)
    · rw [h]
      simp only [ne_eq, reduceCtorEq, not_false_eq_true, true_iff]
      exact Or.inr (Or.inr ⟨res, auth, hp, hd, ht⟩)
    · rw [h]
      simp only [ne_eq, not_true_eq_false, false_iff]
      rintro (⟨e, he⟩ | ⟨res2, e, hp2, hd2⟩ | ⟨res2, auth2, hp2, hd2, ht2⟩)
      · rw [hp] at he
        simp [DoResult.err] at he
      · rw [hp] at hp2
        cases hp2
        rw [hd] at hd2
        simp at hd2
      · rw [hp] at hp2
        cases hp2
        rw [hd] at hd2
        cases hd2
        exact ht ht2
  · intro e h
    rw [GetAuthToken_transport_error env trace e h]
  · intro res e h hd
    rw [GetAuthToken_decode_error env trace res e h hd]
  · rcases GetAuthToken_cases env trace with ⟨e, he, h⟩ | ⟨res, e, hp, hd, h⟩ |
      ⟨res, auth, hp, hd, ht, h⟩ | ⟨res, auth, hp, hd, ht, h⟩ <;> rw [h] <;> simp

/-- C4: the request `CreatePool` sends after its login has as body the JSON encoding of a map
whose `members` are exactly the two entries `server_1.1.2.1:vs_1.1.2.1:80` and
`server_1.1.2.1:vs_1.1.2.1:81`, in that order, whose `partition` is `Common` and whose `ttl`
is 30; the body is the same for every token and in every run. -/
theorem C4_CreatePool_body (env : Env) (trace : List Request) :
    (∃ req params, (CreatePool env trace).2 = trace ++ [loginRequest, req] ∧
      req.Body = Payload.anyMap params ∧
      params.get? "members" = some (GoValue.strMaps
        [[("name", "server_1.1.2.1:vs_1.1.2.1:80")], [("name", "server_1.1.2.1:vs_1.1.2.1:81")]]) ∧
      params.get? "partition" = some (GoValue.str "Common") ∧
      params.get? "ttl" = some (GoValue.int 30)) ∧
    (∀ token1 token2 : String,
      (getReq "POST" "/mgmt/tm/gtm/pool/a" token1 (some CreatePool_params)).1.map Request.Body =
        (getReq "POST" "/mgmt/tm/gtm/pool/a" token2 (some CreatePool_params)).1.map Request.Body) ∧
    (∀ (env2 : Env) (trace2 : List Request),
      ((CreatePool env trace).2.drop (trace.length + 1)).map Request.Body =
        ((CreatePool env2 trace2).2.drop (trace2.length + 1)).map Request.Body) := by
  have hdrop : ∀ (e : Env) (t : List Request),
      ((CreatePool e t).2.drop (t.length + 1)).map Request.Body
        = [Payload.anyMap CreatePool_params] := by
    intro e t
    rw [CreatePool_run e t]
    simp [poolRequest, builtRequest]
  refine ⟨⟨poolRequest (GetAuthToken env trace).1.1, CreatePool_params, ?_, rfl,
    by decide, by decide, by decide⟩, ?_, ?_⟩
  · rw [CreatePool_run]
  · intro token1 token2
    rw [getReq_createPool, getReq_createPool]
    rfl
  · intro env2 trace2
    rw [hdrop, hdrop]

/-- C5, as stated, fails: the login POST of `GetAuthToken` carries the single header line
`Content-Type: application/json; charset=utf-8`, so neither `Accept` nor `X-F5-Auth-Token`
nor the content type `application/json`. -/
theorem C5_counterexample :
    (GetAuthToken (mockEnv (.ok ⟨200, tokenBody⟩) (.ok ⟨200, serversBody⟩)) []).2
      = [loginRequest] ∧
    loginRequest.Header = [("Content-Type", "application/json; charset=utf-8")] ∧
    ¬ (∀ req ∈ (GetAuthToken (mockEnv (.ok ⟨200, tokenBody⟩) (.ok ⟨200, serversBody⟩)) []).2,
        ∃ token, carriesStandardHeaders req token) := by
  have htr : (GetAuthToken (mockEnv (.ok ⟨200, tokenBody⟩) (.ok ⟨200, serversBody⟩)) []).2
      = [loginRequest] := GetAuthToken_trace _ _
  refine ⟨htr, rfl, ?_⟩
  rw [htr]
  intro h
  obtain ⟨token, h1, _⟩ := h loginRequest (List.mem_singleton.2 rfl)
  revert h1
  decide

/-- C5, amended: every request built by `getReq` (the GET of `GetServers`, the POSTs of
`CreateServer`, `CreatePool` and `CreateWideip`) carries exactly the header lines
`Content-Type: application/json`, `Accept: application/json` and `X-F5-Auth-Token: <token>`,
the token being the string the login of that run returned; the login POST, which goes out
first in every run, carries only `Content-Type: application/json; charset=utf-8`. -/
theorem C5_headers_of_built_requests (env : Env) (trace : List Request) :
    (GetAuthToken env trace).2 = trace ++ [loginRequest] ∧
    loginRequest.Header = [("Content-Type", "application/json; charset=utf-8")] ∧
    (∃ rest, (GetServers env trace).2 = trace ++ loginRequest :: rest ∧
      ∀ req ∈ rest, req.Header = standardHeader (GetAuthToken env trace).1.1 ∧
        carriesStandardHeaders req (GetAuthToken env trace).1.1) ∧
    (∃ rest, (CreateServer env trace).2 = trace ++ loginRequest :: rest ∧
      ∀ req ∈ rest, req.Header = standardHeader (GetAuthToken env trace).1.1 ∧
        carriesStandardHeaders req (GetAuthToken env trace).1.1) ∧
    (∃ rest, (CreatePool env trace).2 = trace ++ loginRequest :: rest ∧
      ∀ req ∈ rest, req.Header = standardHeader (GetAuthToken env trace).1.1 ∧
        carriesStandardHeaders req (GetAuthToken env trace).1.1) ∧
    (∃ rest, (CreateWideip env trace).2 = trace ++ loginRequest :: rest ∧
      ∀ req ∈ rest, req.Header = standardHeader (GetAuthToken env trace).1.1 ∧
        carriesStandardHeaders req (GetAuthToken env trace).1.1) := by
  have hstd : ∀ (method uri token : String) (data : Payload),
      (builtRequest method uri token data).Header = standardHeader token ∧
        carriesStandardHeaders (builtRequest method uri token data) token := by
    intro method uri token data
    refine ⟨rfl, ?_⟩
    simp [carriesStandardHeaders, builtRequest]
  refine ⟨GetAuthToken_trace env trace, rfl, ?_, ?_, ?_, ?_⟩
  · rw [GetServers_run]
    cases (GetAuthToken env trace).1.2 with
    | some err => exact ⟨[], rfl, by simp⟩
    | none =>
      refine ⟨[serversRequest (GetAuthToken env trace).1.1], rfl, ?_⟩
      intro req hreq
      rw [List.mem_singleton.1 hreq]
      exact hstd _ _ _ _
  · rw [CreateServer_run]
    refine ⟨[serverRequest (GetAuthToken env trace).1.1], rfl, ?_⟩
    intro req hreq
    rw [List.mem_singleton.1 hreq]
    exact hstd _ _ _ _
  · rw [CreatePool_run]
    refine ⟨[poolRequest (GetAuthToken env trace).1.1], rfl, ?_⟩
    intro req hreq
    rw [List.mem_singleton.1 hreq]
    exact hstd _ _ _ _
  · rw [CreateWideip_run]
    refine ⟨[wideipRequest (GetAuthToken env trace).1.1], rfl, ?_⟩
    intro req hreq
    rw [List.mem_singleton.1 hreq]
    exact hstd _ _ _ _

/-- C6: when the login returns a token without error and the GET gets a response, `GetServers`
returns exactly the `Items` the decoder stored in the collection: the same list, so the same
length, order and maps. -/
theorem C6_GetServers_returns_decoded_items (env : Env) (trace : List Request)
    (token : String) (res : Response) (collection : GtmCollection) (err : Option LibError)
    (hauth : (GetAuthToken env trace).1 = (token, none))
    (hget : env.roundTrip (trace ++ [loginRequest]) (serversRequest token) = .ok res)
    (hdec : env.decodeCollection res.Body = (collection, err)) :
    (GetServers env trace).1 = Outcome.returned collection.Items := by
  rw [GetServers_after_login env trace token hauth]
  simp only [hget, hdec]

/-- Witness of C6: the body `\x7b"kind":"x","items":[\x7b"name":"s1"\x7d]\x7d` yields a list
of one map, which binds `"name"` to `"s1"`. -/
theorem C6_witness :
    (GetServers (mockEnv (.ok ⟨200, tokenBody⟩) (.ok ⟨200, serversBody⟩)) []).1
      = Outcome.returned (some [[("name", JsonValue.string "s1")]]) ∧
    GoMap.get? [("name", JsonValue.string "s1")] "name" = some (JsonValue.string "s1") :=
  ⟨C6_GetServers_returns_decoded_items (mockEnv (.ok ⟨200, tokenBody⟩) (.ok ⟨200, serversBody⟩))
      [] "abc123" ⟨200, serversBody⟩
      { Kind := "x", Items := some [[("name", JsonValue.string "s1")]] } none
      (by rw [mockEnv_login]) rfl rfl, rfl⟩

/-- C7, the code at the failing input: the login succeeds and the resource POST is refused by
the transport. `client.Do` returns a nil response, `defer res.Body.Close()` dereferences it,
and each of the three creators panics instead of completing; `CreatePool` and `CreateWideip`
return no string. -/
theorem C7_creators_panic_on_transport_failure :
    (CreateServer (mockEnv (.ok ⟨200, tokenBody⟩) (.failed connectionRefused)) []).1
      = Outcome.panicked ∧
    (CreatePool (mockEnv (.ok ⟨200, tokenBody⟩) (.failed connectionRefused)) []).1
      = Outcome.panicked ∧
    (CreateWideip (mockEnv (.ok ⟨200, tokenBody⟩) (.failed connectionRefused)) []).1
      = Outcome.panicked ∧
    (CreatePool (mockEnv (.ok ⟨200, tokenBody⟩) (.failed connectionRefused)) []).1
      ≠ Outcome.returned "" ∧
    (CreateWideip (mockEnv (.ok ⟨200, tokenBody⟩) (.failed connectionRefused)) []).1
      ≠ Outcome.returned "" := by
  have h := creators_panic_iff_no_response
    (mockEnv (.ok ⟨200, tokenBody⟩) (.failed connectionRefused)) []
  have hp := h.2.1.2 rfl
  have hw := h.2.2.2 rfl
  refine ⟨h.1.2 rfl, hp, hw, ?_, ?_⟩
  · rw [hp]; intro hc; cases hc
  · rw [hw]; intro hc; cases hc

/-- C8: in every run each of `CreateServer`, `CreatePool` and `CreateWideip` hands exactly two
requests to the transport: first the login POST, the one a call of `GetAuthToken` in the same
state sends, then one POST to its own endpoint whose `X-F5-Auth-Token` header is the string
that login returned. -/
theorem C8_creators_login_then_post (env : Env) (trace : List Request) :
    (GetAuthToken env trace).2 = trace ++ [loginRequest] ∧
    loginRequest.URL = "https://hostname/mgmt/shared/authn/login" ∧
    (∃ req, (CreateServer env trace).2 = trace ++ [loginRequest, req] ∧
      req.Method = "POST" ∧ req.URL = "https://hostname/mgmt/tm/gtm/server" ∧
      req.Header.Values "X-F5-Auth-Token" = [(GetAuthToken env trace).1.1]) ∧
    (∃ req, (CreatePool env trace).2 = trace ++ [loginRequest, req] ∧
      req.Method = "POST" ∧ req.URL = "https://hostname/mgmt/tm/gtm/pool/a" ∧
      req.Header.Values "X-F5-Auth-Token" = [(GetAuthToken env trace).1.1]) ∧
    (∃ req, (CreateWideip env trace).2 = trace ++ [loginRequest, req] ∧
      req.Method = "POST" ∧ req.URL = "https://hostname/mgmt/tm/gtm/wideip/a" ∧
      req.Header.Values "X-F5-Auth-Token" = [(GetAuthToken env trace).1.1]) := by
  refine ⟨GetAuthToken_trace env trace, by decide, ?_, ?_, ?_⟩
  · exact ⟨serverRequest (GetAuthToken env trace).1.1, by rw [CreateServer_run], rfl,
      rfl, rfl⟩
  · exact ⟨poolRequest (GetAuthToken env trace).1.1, by rw [CreatePool_run], rfl,
      rfl, rfl⟩
  · exact ⟨wideipRequest (GetAuthToken env trace).1.1, by rw [CreateWideip_run], rfl,
      rfl, rfl⟩

/-- C9: `GetServers` ends in `log.Fatal` exactly when the login returns an error, or `getReq`
returns an error, or the GET fails at transport level. Once the GET has a response the
function returns whatever the decoder left in `Items`, error or not; on a body the decoder
cannot read as JSON that is the nil list. -/
theorem C9_GetServers_fatal_cases (env : Env) (trace : List Request) :
    ((∃ e, (GetServers env trace).1 = Outcome.exited e) ↔
      ((GetAuthToken env trace).1.2 ≠ none ∨
       (getReq "GET" "/mgmt/tm/gtm/server" (GetAuthToken env trace).1.1 none).2 ≠ none ∨
       (∃ e, (env.roundTrip (trace ++ [loginRequest])
          (serversRequest (GetAuthToken env trace).1.1)).err = some e))) ∧
    (∀ res, (GetAuthToken env trace).1.2 = none →
      env.roundTrip (trace ++ [loginRequest])
        (serversRequest (GetAuthToken env trace).1.1) = .ok res →
      (GetServers env trace).1 = Outcome.returned (env.decodeCollection res.Body).1.Items) ∧
    (∀ res e, (GetAuthToken env trace).1.2 = none →
      env.roundTrip (trace ++ [loginRequest])
        (serversRequest (GetAuthToken env trace).1.1) = .ok res →
      env.readValue res.Body = .error e →
      (env.decodeCollection res.Body).2 = some e ∧
      (GetServers env trace).1 = Outcome.returned none) := by
  refine ⟨?_, ?_, ?_⟩
  · rw [GetServers_run, getReq_servers]
    cases hauth : (GetAuthToken env trace).1.2 with
    | some err => simp
    | none =>
      cases hget : env.roundTrip (trace ++ [loginRequest])
          (serversRequest (GetAuthToken env trace).1.1) with
      | failed e => simp [DoResult.err]
      | redirectFailed res e => simp [DoResult.err]
      | ok res => simp [DoResult.err]
  · intro res hauth hget
    rw [GetServers_run, hauth]
    simp only [hget]
  · intro res e hauth hget hread
    rw [GetServers_run, hauth]
    simp [hget, Env.decodeCollection, hread]

/-- C10: the payloads agree with each other: the `members` that `CreatePool` sends are, in
order, `SERVER_NAME ++ ":" ++ vs.Name` for the entries `vs` of `VIRTUAL_SERVERS`, which are
the `virtualServers` that `CreateServer` sends; the `name` that `CreatePool` sends is
`POOL_NAME`; and the one entry of `pools` that `CreateWideip` sends is that name. -/
theorem C10_payloads_are_consistent (env : Env) (trace : List Request) :
    (∃ token, (CreateServer env trace).2 = trace ++ [loginRequest,
        builtRequest "POST" "/mgmt/tm/gtm/server" token (.anyMap CreateServer_params)]) ∧
    (∃ token, (CreatePool env trace).2 = trace ++ [loginRequest,
        builtRequest "POST" "/mgmt/tm/gtm/pool/a" token (.anyMap CreatePool_params)]) ∧
    (∃ token, (CreateWideip env trace).2 = trace ++ [loginRequest,
        builtRequest "POST" "/mgmt/tm/gtm/wideip/a" token (.anyMap CreateWideip_params)]) ∧
    CreateServer_params.get? "virtualServers" = some (GoValue.virtualServers VIRTUAL_SERVERS) ∧
    CreatePool_params.get? "members" = some (GoValue.strMaps
      (VIRTUAL_SERVERS.map (fun vs => [("name", SERVER_NAME ++ ":" ++ vs.Name)]))) ∧
    CreatePool_params.get? "name" = some (GoValue.str POOL_NAME) ∧
    CreateWideip_params.get? "pools" = some (GoValue.strMaps [[("name", POOL_NAME)]]) := by
  refine ⟨⟨(GetAuthToken env trace).1.1, ?_⟩, ⟨(GetAuthToken env trace).1.1, ?_⟩,
    ⟨(GetAuthToken env trace).1.1, ?_⟩, by decide, by decide, by decide, by decide⟩
  · rw [CreateServer_run]; rfl
  · rw [CreatePool_run]; rfl
  · rw [CreateWideip_run]; rfl

end F5Gtm
